import Mathlib

/-!
Shallow embedding of the TCGA gene-expression pipeline of
`src/tools/tcga/tcga_api.py` (`TCGA_API.get_gene_specific_expression_in_cancer_type`)
and its hosting tool `src/tools/tcga/server.py`.

Modelling conventions.

* Machine floats are modelled by exact rationals `ℚ`.  The float value NaN
  (produced by pandas for the standard deviation of a single value, and by
  `0.0 / 0.0` when the standard deviation of the cohort means is zero) is
  modelled by `none` in an `Option ℚ`.  Because a square root of a rational
  is in general irrational, the per-cohort sample standard deviation is
  carried as its square (the sample variance, field `std2`), and the z-score
  threshold tests `z > 1` / `z < -1` are rendered by the exactly equivalent
  squared comparisons (for `v > 0`: `(m - μ)/√v > 1 ↔ 0 < m - μ ∧ v < (m - μ)²`);
  the equivalence with the literal `Real.sqrt` form is proved below
  (`zHiTest_iff_real`, `zLoTest_iff_real`).

* An HTTP response is a status code and a body; the body is modelled as the
  list of text lines remaining after Python's `resp.text.strip()`, so a
  stripped-empty body is `[]` and `content.startswith("No records")` is the
  first line starting with that sentinel.  Fields on a line are produced by
  splitting on tab, as `pd.read_csv(..., sep="\t")` does.

* The `while True:` loop is given explicit fuel; `none` is the surrogate for
  a run that does not terminate within the fuel.  The loop also records the
  trace of issued request parameter records (the code's `params` dict, whose
  `page` entry it increments in place).

* Raised Python exceptions are `Except.error` values: the pandas
  `ValueError: Length mismatch` from `df.columns = columns` on a page whose
  column count differs from the stored schema, and the `NameError` from
  line 51's use of `final_df` when `all_data` is empty (the `if all_data:`
  guard on line 48 skips the assignment).  The hosting tool in `server.py`
  catches every exception and wraps it in a single-element error list.

* `groupby("cohort")` sorts group keys ascending, as pandas does by default;
  `sort_values` is modelled by a stable sort (pandas' default quicksort is
  deterministic but its order on tied keys is not specified by the spec).

* Python's `round(x, 3)` is modelled by round-half-to-even at three decimal
  places on exact rationals.
-/

namespace OrigeneTCGA

/-- Arithmetic mean of a list of rationals, `Series.mean()`. -/
def smean (xs : List ℚ) : ℚ := xs.sum / xs.length

/-- Sample variance (denominator `n - 1`), the square of pandas
`Series.std()` (which uses `ddof=1`); `none` models the NaN that
`std()` returns on fewer than two values. -/
def sampleVar (xs : List ℚ) : Option ℚ :=
  if xs.length < 2 then none
  else some (((xs.map fun x => (x - smean xs) ^ 2).sum) / ((xs.length : ℚ) - 1))

/-- Round to the nearest integer, ties to even: Python's `round`. -/
def roundHalfEven (q : ℚ) : ℤ :=
  let n : ℤ := ⌊q⌋
  let f : ℚ := q - n
  if f < 1 / 2 then n
  else if 1 / 2 < f then n + 1
  else if 2 ∣ n then n else n + 1

/-- `round(x, 3)` of the code (then `float(...)`, the identity here). -/
def round3 (q : ℚ) : ℚ := (roundHalfEven (q * 1000) : ℚ) / 1000

/-! ### The fetch side: pages, parameters, dataframes -/

/-- An HTTP response: `resp.status_code` and `resp.text` after `strip()`,
the latter as its list of lines. -/
structure Resp where
  status : Nat
  text : List String
deriving DecidableEq, Repr

/-- The query-parameter dict built on lines 13-21 of `tcga_api.py`. -/
structure Params where
  format : String
  gene : String
  sample_type : String
  protocol : String
  page_size : Nat
  page : Nat
  sort_by : String
deriving DecidableEq, Repr

/-- The initial `params` dict: fixed values, `page = 1`. -/
def initParams (gene : String) : Params :=
  { format := "tsv", gene := gene, sample_type := "TM,TP,TR",
    protocol := "RSEM", page_size := 2000, page := 1, sort_by := "cohort" }

/-- A pandas DataFrame, reduced to what the pipeline uses: column names and
rows of string cells. -/
structure DF where
  columns : List String
  rows : List (List String)
deriving DecidableEq, Repr

/-- Split a character list at every occurrence of `sep` (structural rendering
of Python's `str.split` on one character, used because the library string
splitter does not reduce in the kernel). -/
def splitFieldsAux (sep : Char) : List Char → List Char → List String
  | [], cur => [String.mk cur.reverse]
  | c :: rest, cur =>
    if c = sep then String.mk cur.reverse :: splitFieldsAux sep rest []
    else splitFieldsAux sep rest (c :: cur)

/-- Split a string at every occurrence of `sep`. -/
def splitField (sep : Char) (s : String) : List String :=
  splitFieldsAux sep s.data []

/-- `pre` is a prefix of `s` (Python's `str.startswith`). -/
def startsWithStr (pre s : String) : Bool := pre.data.isPrefixOf s.data

/-- Split each line of a body into tab-separated fields. -/
def tsv (lines : List String) : List (List String) :=
  lines.map fun l => splitField '\t' l

/-- `pd.read_csv(StringIO(content), sep="\t")` on page 1: the first line is
the header, the rest are rows. -/
def readTsvHeader (lines : List String) : DF :=
  { columns := splitField '\t' (lines.headD ""), rows := tsv lines.tail }

/-- `pd.read_csv(StringIO(content), sep="\t", header=None)` on later pages:
every line is a row. -/
def readTsvNoHeader (lines : List String) : List (List String) := tsv lines

/-- Message of the pandas `ValueError` raised by `df.columns = columns`
when the lengths disagree. -/
def lengthMismatchMsg : String := "ValueError: Length mismatch"

/-- `df.columns = columns` (line 42): pandas raises a `ValueError` when the
number of assigned names differs from the frame's column count (the width
of the first row, from which `read_csv` infers the schema). -/
def setColumns (cols : List String) (rows : List (List String)) : Except String DF :=
  if (rows.headD []).length = cols.length then .ok { columns := cols, rows := rows }
  else .error lengthMismatchMsg

/-- The body-level stop test of lines 32-34:
`if not content or content.startswith("No records"): break`. -/
def stopBody (lines : List String) : Bool :=
  lines.isEmpty || startsWithStr "No records" (lines.headD "")

/-- Message of the Python `NameError` from line 51 when `all_data` was empty
and `final_df` was therefore never assigned. -/
def nameErrorMsg : String := "NameError: name final_df is not defined"

/-- Message of the `NameError` on `columns` if a non-first page were parsed
with no stored schema (unreachable from the initial state, where the loop
starts at page 1). -/
def columnsUnboundMsg : String := "NameError: name columns is not defined"

/-- One transport capability: issue a GET with the given query parameters,
receive a response.  The code's `self.session.get(self.BASE_URL, params=params)`. -/
def Transport : Type := Params → Resp

/-- The `while True:` loop of lines 25-45, with explicit fuel.
State: current `params`, the stored `columns` (set while parsing page 1),
the accumulator `all_data`, and the trace of issued requests.
Returns `none` when the fuel runs out (the loop did not terminate),
`some (.error e)` when a Python exception is raised inside the loop, and
`some (.ok (trace, all_data))` when a `break` is reached. -/
def fetchLoop (t : Transport) : Nat → Params → Option (List String) →
    List DF → List Params → Option (Except String (List Params × List DF))
  | 0, _, _, _, _ => none
  | fuel + 1, params, cols, acc, trace =>
    let resp := t params
    let trace := trace ++ [params]
    if resp.status ≠ 200 then some (.ok (trace, acc))
    else if stopBody resp.text then some (.ok (trace, acc))
    else if params.page = 1 then
      let df := readTsvHeader resp.text
      fetchLoop t fuel { params with page := params.page + 1 }
        (some df.columns) (acc ++ [df]) trace
    else
      match cols with
      | none => some (.error columnsUnboundMsg)
      | some cs =>
        match setColumns cs (readTsvNoHeader resp.text) with
        | .error e => some (.error e)
        | .ok df =>
          fetchLoop t fuel { params with page := params.page + 1 }
            cols (acc ++ [df]) trace

/-- Run the pagination loop from its initial state. -/
def fetchAll (t : Transport) (gene : String) (fuel : Nat) :
    Option (Except String (List Params × List DF)) :=
  fetchLoop t fuel (initParams gene) none [] []

/-- `pd.concat(all_data, ignore_index=True)`: every accumulated frame carries
the page-1 schema, so the result keeps those columns and concatenates the
rows in page order, then in-page order. -/
def concatDfs (dfs : List DF) : DF :=
  { columns := (dfs.headD { columns := [], rows := [] }).columns,
    rows := (dfs.map DF.rows).flatten }

/-! ### The statistics side: grouping, aggregation, classification -/

/-- One row of `df_grouped` (line 51): a cohort with the `mean`, `std` and
`count` aggregates of its `expression_log2` values.  `std2` is the square of
the code's `std` column (the sample variance); `none` models NaN. -/
structure CohortStat where
  cohort : String
  mean : ℚ
  std2 : Option ℚ
  count : Nat
deriving DecidableEq, Repr

/-- The `expression_log2` values of the rows of one cohort group. -/
def groupVals (rows : List (String × ℚ)) (c : String) : List ℚ :=
  (rows.filter fun r => r.1 = c).map Prod.snd

/-- The distinct cohort keys in pandas `groupby` order: sorted ascending. -/
def cohortKeys (rows : List (String × ℚ)) : List String :=
  List.insertionSort (· ≤ ·) (rows.map Prod.fst).dedup

/-- `final_df.groupby("cohort")["expression_log2"].agg(["mean", "std", "count"])`:
one `CohortStat` per distinct cohort, keys ascending. -/
def aggregateRows (rows : List (String × ℚ)) : List CohortStat :=
  (cohortKeys rows).map fun c =>
    let vs := groupVals rows c
    { cohort := c, mean := smean vs, std2 := sampleVar vs, count := vs.length }

/-- The mean column of a grouped frame. -/
def meansOf (stats : List CohortStat) : List ℚ := stats.map CohortStat.mean

/-- `df_grouped.sort_values("mean", ascending=False)`. -/
def sortByMeanDesc (l : List CohortStat) : List CohortStat :=
  List.insertionSort (fun a b => b.mean ≤ a.mean) l

/-- `df_grouped.sort_values("mean")` (ascending). -/
def sortByMeanAsc (l : List CohortStat) : List CohortStat :=
  List.insertionSort (fun a b => a.mean ≤ b.mean) l

/-- The float test `zscore > 1` where
`zscore = (m - mean_of_means) / std_of_means` (line 52).  When the variance
of the means is NaN (`none`, fewer than two cohorts) the z-score is NaN and
the test is false.  When it is a rational `v`, the test is the exact squared
rendering of `(m - μ)/√v > 1`, which also agrees with IEEE arithmetic when
`v = 0` (`0/0 = NaN` compares false; `±x/0 = ±∞` compares like the sign of
`x`): see `zHiTest_iff_real`. -/
def zHiTest (ms : List ℚ) (m : ℚ) : Bool :=
  match sampleVar ms with
  | none => false
  | some v => decide (0 < m - smean ms ∧ v < (m - smean ms) ^ 2)

/-- The float test `zscore < -1`, rendered like `zHiTest`. -/
def zLoTest (ms : List ℚ) (m : ℚ) : Bool :=
  match sampleVar ms with
  | none => false
  | some v => decide (m - smean ms < 0 ∧ v < (m - smean ms) ^ 2)

/-- One element of the returned lists (lines 60-64):
`{"cancer_type": ..., "mean_expression": ..., "sample_count": ...}`. -/
structure ExprEntry where
  cancer_type : String
  mean_expression : ℚ
  sample_count : Nat
deriving DecidableEq, Repr

/-- Build one output entry from a grouped row. -/
def toEntry (s : CohortStat) : ExprEntry :=
  { cancer_type := s.cohort, mean_expression := round3 s.mean, sample_count := s.count }

/-- The dictionary returned on lines 58-75. -/
structure ClassOutput where
  high_expression_cancers : List ExprEntry
  low_expression_cancers : List ExprEntry
deriving DecidableEq, Repr

/-- Lines 51-75 from the grouped statistics on: sort the grouped frame by
mean descending, add the z-score column over the distribution of cohort
means, filter `z > 1` (re-sorted by mean descending) and `z < -1` (sorted by
mean ascending), and format each surviving cohort. -/
def classify (stats : List CohortStat) : ClassOutput :=
  let g := sortByMeanDesc stats
  let ms := meansOf g
  let high := sortByMeanDesc (g.filter fun s => zHiTest ms s.mean)
  let low := sortByMeanAsc (g.filter fun s => zLoTest ms s.mean)
  { high_expression_cancers := high.map toEntry,
    low_expression_cancers := low.map toEntry }

/-! ### Reading the two used columns out of the concatenated frame -/

/-- Numeric value of a digit string. -/
def digitsVal (cs : List Char) : Nat :=
  cs.foldl (fun acc c => acc * 10 + (c.toNat - 48)) 0

/-- Whether a nonempty character list is all decimal digits. -/
def isDigits (cs : List Char) : Bool := !cs.isEmpty && cs.all (·.isDigit)

/-- Magnitude of an unsigned decimal literal (optional fractional part),
`0` on non-numeric text. -/
def parseRatMag (cs : List Char) : ℚ :=
  match splitFieldsAux '.' cs [] with
  | [ip] => if isDigits ip.data then (digitsVal ip.data : ℚ) else 0
  | [ip, fp] =>
    if isDigits ip.data && isDigits fp.data then
      (digitsVal ip.data : ℚ) + (digitsVal fp.data : ℚ) / (10 ^ fp.length)
    else 0
  | _ => 0

/-- Parse a decimal literal (optional sign, optional fractional part) as an
exact rational, the value pandas' dtype inference would store for the cell;
non-numeric text falls back to `0` (the embedding assumes a numeric
`expression_log2` column). -/
def parseRat (s : String) : ℚ :=
  match s.data with
  | '-' :: rest => -parseRatMag rest
  | _ => parseRatMag s.data

/-- Cell `i` of a row (`""` when absent). -/
def cell (r : List String) (i : Nat) : String := r.getD i ""

/-- Lines 51-75 from the concatenated frame: locate the `cohort` and
`expression_log2` columns (pandas raises a `KeyError` when one is missing),
extract `(cohort, value)` per row, aggregate and classify. -/
def analyze (df : DF) : Except String ClassOutput :=
  match df.columns.findIdx? (fun c => c = "cohort"),
        df.columns.findIdx? (fun c => c = "expression_log2") with
  | some ci, some vi =>
    .ok (classify (aggregateRows (df.rows.map fun r => (cell r ci, parseRat (cell r vi)))))
  | _, _ => .error "KeyError"

/-- The whole operation `get_gene_specific_expression_in_cancer_type`:
paginate, then (line 48) only when `all_data` is nonempty assign `final_df`,
so an empty accumulation makes line 51 raise a `NameError`; otherwise
concatenate and analyze. -/
def getExpr (t : Transport) (gene : String) (fuel : Nat) :
    Option (Except String ClassOutput) :=
  match fetchAll t gene fuel with
  | none => none
  | some (.error e) => some (.error e)
  | some (.ok (_, dfs)) =>
    match dfs with
    | [] => some (.error nameErrorMsg)
    | _ => some (analyze (concatDfs dfs))

/-- The tool wrapper of `server.py` lines 28-32: a raised exception becomes
the single-element list `[{"error": f"An error occurred while search gene: {str(e)}"}]`,
modelled as `Sum.inr` of the one-element list of messages. -/
def toolResult (t : Transport) (gene : String) (fuel : Nat) :
    Option (Sum ClassOutput (List String)) :=
  match getExpr t gene fuel with
  | none => none
  | some (.ok r) => some (.inl r)
  | some (.error e) => some (.inr ["An error occurred while search gene: " ++ e])

/-! ### Helper lemmas about the statistics -/

lemma smean_perm {l l' : List ℚ} (h : l.Perm l') : smean l = smean l' := by
  simp [smean, h.sum_eq, h.length_eq]

lemma sampleVar_perm {l l' : List ℚ} (h : l.Perm l') : sampleVar l = sampleVar l' := by
  have hs := smean_perm h
  have hsum : (l.map fun x => (x - smean l') ^ 2).sum
      = (l'.map fun x => (x - smean l') ^ 2).sum := (h.map _).sum_eq
  simp [sampleVar, h.length_eq, hs, hsum]

lemma sampleVar_none_iff (l : List ℚ) : sampleVar l = none ↔ l.length < 2 := by
  unfold sampleVar; split <;> simp_all

lemma sampleVar_nonneg {l : List ℚ} {v : ℚ} (h : sampleVar l = some v) : 0 ≤ v := by
  unfold sampleVar at h
  split at h
  · exact absurd h (by simp)
  · rename_i hlen
    injection h with h
    subst h
    apply div_nonneg
    · exact List.sum_nonneg fun x hx => by
        obtain ⟨y, _, rfl⟩ := List.mem_map.mp hx
        positivity
    · have h2 : (2 : ℚ) ≤ (l.length : ℚ) := by exact_mod_cast (by omega : 2 ≤ l.length)
      linarith

lemma sum_eq_zero_mem {l : List ℚ} (hn : ∀ x ∈ l, 0 ≤ x) (h : l.sum = 0) :
    ∀ x ∈ l, x = 0 := by
  induction l with
  | nil => simp
  | cons a t ih =>
    simp only [List.sum_cons] at h
    have ha : 0 ≤ a := hn a (by simp)
    have ht : 0 ≤ t.sum := List.sum_nonneg fun x hx => hn x (List.mem_cons_of_mem _ hx)
    have ha0 : a = 0 := by linarith
    intro x hx
    rcases List.mem_cons.mp hx with rfl | hx
    · exact ha0
    · exact ih (fun y hy => hn y (List.mem_cons_of_mem _ hy)) (by linarith) x hx

lemma sampleVar_zero_mean {l : List ℚ} (h : sampleVar l = some 0) :
    ∀ m ∈ l, m = smean l := by
  unfold sampleVar at h
  split at h
  · exact absurd h (by simp)
  · rename_i hlen
    injection h with h
    have hden : ((l.length : ℚ) - 1) ≠ 0 := by
      have h2 : (2 : ℚ) ≤ (l.length : ℚ) := by exact_mod_cast (by omega : 2 ≤ l.length)
      intro hc; linarith
    rcases div_eq_zero_iff.mp h with hsum | habs
    · intro m hm
      have hterm : (m - smean l) ^ 2 = 0 := by
        refine sum_eq_zero_mem ?_ hsum _ (List.mem_map_of_mem _ hm)
        intro x hx
        obtain ⟨y, _, rfl⟩ := List.mem_map.mp hx
        positivity
      have := (pow_eq_zero_iff two_ne_zero).mp hterm
      linarith [sub_eq_zero.mp this]
    · exact absurd habs hden

lemma zHiTest_congr {ms ms' : List ℚ} (h : ms.Perm ms') (m : ℚ) :
    zHiTest ms m = zHiTest ms' m := by
  simp only [zHiTest, sampleVar_perm h, smean_perm h]

lemma zLoTest_congr {ms ms' : List ℚ} (h : ms.Perm ms') (m : ℚ) :
    zLoTest ms m = zLoTest ms' m := by
  simp only [zLoTest, sampleVar_perm h, smean_perm h]

lemma zHiTest_false_of_none {ms : List ℚ} (h : sampleVar ms = none) (m : ℚ) :
    zHiTest ms m = false := by
  simp [zHiTest, h]

lemma zLoTest_false_of_none {ms : List ℚ} (h : sampleVar ms = none) (m : ℚ) :
    zLoTest ms m = false := by
  simp [zLoTest, h]

lemma zHiTest_false_of_var_zero {ms : List ℚ} (h : sampleVar ms = some 0)
    {m : ℚ} (hm : m ∈ ms) : zHiTest ms m = false := by
  have hmean := sampleVar_zero_mean h m hm
  simp [zHiTest, h, hmean]

lemma zLoTest_false_of_var_zero {ms : List ℚ} (h : sampleVar ms = some 0)
    {m : ℚ} (hm : m ∈ ms) : zLoTest ms m = false := by
  have hmean := sampleVar_zero_mean h m hm
  simp [zLoTest, h, hmean]

lemma sortByMeanDesc_perm (l : List CohortStat) : (sortByMeanDesc l).Perm l :=
  List.perm_insertionSort _ l

lemma sortByMeanAsc_perm (l : List CohortStat) : (sortByMeanAsc l).Perm l :=
  List.perm_insertionSort _ l

lemma meansOf_sort_perm (stats : List CohortStat) :
    (meansOf (sortByMeanDesc stats)).Perm (meansOf stats) :=
  (sortByMeanDesc_perm stats).map _

/-- Unfolding of the high list of `classify`. -/
lemma classify_high (stats : List CohortStat) :
    (classify stats).high_expression_cancers =
      (sortByMeanDesc ((sortByMeanDesc stats).filter fun s =>
        zHiTest (meansOf (sortByMeanDesc stats)) s.mean)).map toEntry := rfl

/-- Unfolding of the low list of `classify`. -/
lemma classify_low (stats : List CohortStat) :
    (classify stats).low_expression_cancers =
      (sortByMeanAsc ((sortByMeanDesc stats).filter fun s =>
        zLoTest (meansOf (sortByMeanDesc stats)) s.mean)).map toEntry := rfl

/-- When every grouped row fails both threshold tests, the classification is
a pair of empty lists. -/
lemma classify_eq_empty_of_tests (stats : List CohortStat)
    (h : ∀ s ∈ sortByMeanDesc stats,
      zHiTest (meansOf (sortByMeanDesc stats)) s.mean = false ∧
      zLoTest (meansOf (sortByMeanDesc stats)) s.mean = false) :
    classify stats = { high_expression_cancers := [], low_expression_cancers := [] } := by
  have h1 : (sortByMeanDesc stats).filter
      (fun s => zHiTest (meansOf (sortByMeanDesc stats)) s.mean) = [] :=
    List.filter_eq_nil_iff.mpr fun a ha => by simp [(h a ha).1]
  have h2 : (sortByMeanDesc stats).filter
      (fun s => zLoTest (meansOf (sortByMeanDesc stats)) s.mean) = [] :=
    List.filter_eq_nil_iff.mpr fun a ha => by simp [(h a ha).2]
  simp only [classify, h1, h2]
  rfl

/-- Sample variance of a two-element list. -/
lemma sampleVar_pair (x y : ℚ) :
    sampleVar [x, y] = some ((x - smean [x, y]) ^ 2 + (y - smean [x, y]) ^ 2) := by
  norm_num [sampleVar]

lemma zHiTest_pair_false (x y m : ℚ) (hm : m = x ∨ m = y) :
    zHiTest [x, y] m = false := by
  simp only [zHiTest, sampleVar_pair]
  rw [decide_eq_false_iff_not]
  rintro ⟨hpos, hlt⟩
  rcases hm with rfl | rfl
  · nlinarith [sq_nonneg (y - smean [m, y])]
  · nlinarith [sq_nonneg (x - smean [x, m])]

lemma zLoTest_pair_false (x y m : ℚ) (hm : m = x ∨ m = y) :
    zLoTest [x, y] m = false := by
  simp only [zLoTest, sampleVar_pair]
  rw [decide_eq_false_iff_not]
  rintro ⟨hneg, hlt⟩
  rcases hm with rfl | rfl
  · nlinarith [sq_nonneg (y - smean [m, y])]
  · nlinarith [sq_nonneg (x - smean [x, m])]

/-! ### Claims C2, C9, C10 -/

/-- Claim C2: for every stats mapping in which the sample standard deviation
of the per-cohort means is zero, or which contains fewer than 2 cohorts, the
classification returns both output lists empty (the degenerate z-scores are
NaN sentinels, never a raised division-by-zero). -/
theorem c2_degenerate_both_empty (stats : List CohortStat)
    (h : stats.length < 2 ∨ sampleVar (meansOf stats) = some 0) :
    (classify stats).high_expression_cancers = [] ∧
    (classify stats).low_expression_cancers = [] := by
  have hperm := meansOf_sort_perm stats
  have hall : ∀ s ∈ sortByMeanDesc stats,
      zHiTest (meansOf (sortByMeanDesc stats)) s.mean = false ∧
      zLoTest (meansOf (sortByMeanDesc stats)) s.mean = false := by
    intro s hs
    rcases h with hlen | hzero
    · have hnone : sampleVar (meansOf (sortByMeanDesc stats)) = none := by
        rw [sampleVar_none_iff]
        have hl : (meansOf (sortByMeanDesc stats)).length = stats.length := by
          simp [meansOf, (sortByMeanDesc_perm stats).length_eq]
        omega
      exact ⟨zHiTest_false_of_none hnone _, zLoTest_false_of_none hnone _⟩
    · have hz : sampleVar (meansOf (sortByMeanDesc stats)) = some 0 := by
        rw [sampleVar_perm hperm]; exact hzero
      have hm : s.mean ∈ meansOf (sortByMeanDesc stats) := List.mem_map_of_mem _ hs
      exact ⟨zHiTest_false_of_var_zero hz hm, zLoTest_false_of_var_zero hz hm⟩
  have := classify_eq_empty_of_tests stats hall
  exact ⟨congrArg ClassOutput.high_expression_cancers this,
    congrArg ClassOutput.low_expression_cancers this⟩

/-- A three-cohort stats mapping with identical means. -/
def statsUniform : List CohortStat :=
  [{ cohort := "A", mean := 10, std2 := some 0, count := 5 },
   { cohort := "B", mean := 10, std2 := some 0, count := 5 },
   { cohort := "C", mean := 10, std2 := some 0, count := 5 }]

theorem c2_degenerate_both_empty_witness :
    (statsUniform.length < 2 ∨ sampleVar (meansOf statsUniform) = some 0) ∧
    (classify statsUniform).high_expression_cancers = [] ∧
    (classify statsUniform).low_expression_cancers = [] :=
  ⟨Or.inr (by norm_num [sampleVar, smean, meansOf, statsUniform]),
    c2_degenerate_both_empty statsUniform
      (Or.inr (by norm_num [sampleVar, smean, meansOf, statsUniform]))⟩

/-- Claim C9: classification is a deterministic pure function of the stats
mapping, and the whole pipeline is a deterministic function of the transport:
identical inputs produce identical outputs. -/
theorem c9_deterministic (s₁ s₂ : List CohortStat) (h : s₁ = s₂) :
    classify s₁ = classify s₂ ∧
    ∀ (t : Transport) (gene : String) (fuel : Nat),
      getExpr t gene fuel = getExpr t gene fuel := by
  subst h
  exact ⟨rfl, fun _ _ _ => rfl⟩

theorem c9_deterministic_witness :
    classify statsUniform = classify statsUniform ∧
    ∀ (t : Transport) (gene : String) (fuel : Nat),
      getExpr t gene fuel = getExpr t gene fuel :=
  c9_deterministic statsUniform statsUniform rfl

/-- Claim C10: a stats mapping of exactly two cohorts always classifies to
two empty lists: with the sample standard deviation of two means, no z-score
can exceed 1 in absolute value (it is `±1/√2` when the means differ and NaN
when they agree). -/
theorem c10_two_cohorts_empty (stats : List CohortStat) (h : stats.length = 2) :
    classify stats = { high_expression_cancers := [], low_expression_cancers := [] } := by
  have hlen : (meansOf (sortByMeanDesc stats)).length = 2 := by
    simp [meansOf, (sortByMeanDesc_perm stats).length_eq, h]
  obtain ⟨x, y, hxy⟩ := List.length_eq_two.mp hlen
  refine classify_eq_empty_of_tests stats ?_
  intro s hs
  have hmem : s.mean ∈ meansOf (sortByMeanDesc stats) := List.mem_map_of_mem _ hs
  rw [hxy] at hmem
  have hm : s.mean = x ∨ s.mean = y := by simpa using hmem
  rw [hxy]
  exact ⟨zHiTest_pair_false x y s.mean hm, zLoTest_pair_false x y s.mean hm⟩

/-- A two-cohort stats mapping with well-separated means. -/
def statsPair : List CohortStat :=
  [{ cohort := "A", mean := 1, std2 := some 0, count := 2 },
   { cohort := "B", mean := 500, std2 := some 1, count := 3 }]

theorem c10_two_cohorts_empty_witness :
    statsPair.length = 2 ∧
    classify statsPair = { high_expression_cancers := [], low_expression_cancers := [] } :=
  ⟨by decide, c10_two_cohorts_empty statsPair (by decide)⟩

/-! ### Claims C3, C4, C5: the fetch loop's stop and failure behaviour -/

/-- Claim C3, counterexample input: a transport whose very first page request
returns HTTP 500. -/
def t500 : Transport := fun _ => { status := 500, text := [] }

/-- Claim C3 is false as stated: when the very first page request fails with
a non-2xx status, the operation does not return the (empty) dataset
accumulated so far — line 51 raises a `NameError` because `final_df` was
never assigned, so an error is raised to the caller. -/
theorem c3_counterexample :
    getExpr t500 "TP53" 1 = some (.error nameErrorMsg) ∧
    ∀ r : ClassOutput, getExpr t500 "TP53" 1 ≠ some (.ok r) := by
  constructor
  · rfl
  · intro r h
    rw [show getExpr t500 "TP53" 1 = some (.error nameErrorMsg) from rfl] at h
    simp at h

/-- Claim C3, amended: if a page request returns a non-200 (in particular any
non-2xx) status, pagination terminates immediately and the fetch loop hands
back the pages accumulated so far without raising; it is only the later
aggregation step that raises when that accumulation is empty. -/
theorem c3_amended_nonfatal_break (t : Transport) (fuel : Nat) (params : Params)
    (cols : Option (List String)) (acc : List DF) (trace : List Params)
    (hf : 0 < fuel) (hstat : (t params).status ≠ 200) :
    fetchLoop t fuel params cols acc trace = some (.ok (trace ++ [params], acc)) := by
  obtain ⟨f, rfl⟩ : ∃ f, fuel = f + 1 := ⟨fuel - 1, by omega⟩
  simp [fetchLoop, hstat]

theorem c3_amended_nonfatal_break_witness :
    0 < 1 ∧ (t500 (initParams "TP53")).status ≠ 200 ∧
    fetchLoop t500 1 (initParams "TP53") none [] [] =
      some (.ok ([initParams "TP53"], [])) :=
  ⟨by decide, by decide,
    c3_amended_nonfatal_break t500 1 (initParams "TP53") none [] []
      (by decide) (by decide)⟩

/-- Claim C4: when the very first page yields no rows (its body is empty
after stripping), the accumulation is empty, line 51 raises (the role the
spec names `EmptyDataset`), and the hosting tool surfaces the failure as a
single-element error list rather than a crash or a malformed
classification. -/
theorem c4_empty_first_page_error (t : Transport) (gene : String) (fuel : Nat)
    (hf : 0 < fuel) (h200 : (t (initParams gene)).status = 200)
    (hempty : (t (initParams gene)).text = []) :
    toolResult t gene fuel =
      some (.inr ["An error occurred while search gene: " ++ nameErrorMsg]) := by
  obtain ⟨f, rfl⟩ : ∃ f, fuel = f + 1 := ⟨fuel - 1, by omega⟩
  unfold toolResult getExpr fetchAll
  simp [fetchLoop, h200, hempty, stopBody]

/-- A transport whose pages are all `200 OK` with an empty body. -/
def tEmpty : Transport := fun _ => { status := 200, text := [] }

theorem c4_empty_first_page_error_witness :
    0 < 1 ∧ (tEmpty (initParams "TP53")).status = 200 ∧
    (tEmpty (initParams "TP53")).text = [] ∧
    toolResult tEmpty "TP53" 1 =
      some (.inr ["An error occurred while search gene: " ++ nameErrorMsg]) :=
  ⟨by decide, by decide, by decide,
    c4_empty_first_page_error tEmpty "TP53" 1 (by decide) (by decide) (by decide)⟩

/-- Claim C5: at any loop state past page 1 (the stored schema being page 1's
header), a successful, non-empty page whose column count — the field count of
its first line, from which `read_csv` infers the frame width — differs from
the stored schema's length makes the operation fail with the pandas
`ValueError` (the role the spec names `SchemaMismatch`) instead of silently
misaligning columns. -/
theorem c5_schema_mismatch_error (t : Transport) (fuel : Nat) (params : Params)
    (cs : List String) (acc : List DF) (trace : List Params)
    (hf : 0 < fuel) (hp : params.page ≠ 1)
    (h200 : (t params).status = 200)
    (hbody : stopBody (t params).text = false)
    (hmis : (splitField '\t' ((t params).text.headD "")).length ≠ cs.length) :
    fetchLoop t fuel params (some cs) acc trace = some (.error lengthMismatchMsg) := by
  obtain ⟨f, rfl⟩ : ∃ f, fuel = f + 1 := ⟨fuel - 1, by omega⟩
  obtain ⟨l, ls, hls⟩ : ∃ l ls, (t params).text = l :: ls := by
    rcases h : (t params).text with _ | ⟨l, ls⟩
    · rw [h] at hbody; simp [stopBody] at hbody
    · exact ⟨l, ls, rfl⟩
  rw [hls] at hmis hbody
  simp only [List.headD_cons] at hmis
  simp [fetchLoop, h200, hbody, hp, setColumns, readTsvNoHeader, tsv, hls, hmis]

/-- A transport whose second page has 3 columns against a 2-column header. -/
def tMismatch : Transport := fun p =>
  if p.page = 1 then { status := 200, text := ["cohort\texpression_log2", "ACC\t1.5"] }
  else { status := 200, text := ["ACC\t1.5\tstray"] }

theorem c5_schema_mismatch_error_witness :
    0 < 1 ∧ ({ initParams "TP53" with page := 2 } : Params).page ≠ 1 ∧
    (tMismatch { initParams "TP53" with page := 2 }).status = 200 ∧
    stopBody (tMismatch { initParams "TP53" with page := 2 }).text = false ∧
    ((splitField '\t' ((tMismatch { initParams "TP53" with page := 2 }).text.headD "")).length
      ≠ ["cohort", "expression_log2"].length) ∧
    fetchLoop tMismatch 1 { initParams "TP53" with page := 2 }
      (some ["cohort", "expression_log2"]) [] [] = some (.error lengthMismatchMsg) :=
  ⟨by decide, by decide, by decide, by decide, by decide,
    c5_schema_mismatch_error tMismatch 1 { initParams "TP53" with page := 2 }
      ["cohort", "expression_log2"] [] []
      (by decide) (by decide) (by decide) (by decide) (by decide)⟩

/-! ### Claim C7: grouping and per-cohort aggregation -/

lemma mem_cohortKeys {rows : List (String × ℚ)} {c : String} :
    c ∈ cohortKeys rows ↔ c ∈ rows.map Prod.fst := by
  unfold cohortKeys
  rw [(List.perm_insertionSort _ _).mem_iff, List.mem_dedup]

lemma groupVals_ne_nil {rows : List (String × ℚ)} {c : String}
    (h : c ∈ rows.map Prod.fst) : groupVals rows c ≠ [] := by
  obtain ⟨r, hr, rfl⟩ := List.mem_map.mp h
  have : r ∈ rows.filter fun x => x.1 = r.1 :=
    List.mem_filter.mpr ⟨hr, by simp⟩
  simp only [groupVals, ne_eq, List.map_eq_nil_iff]
  exact fun hnil => by simp [hnil] at this

/-- Claim C7: aggregation groups the rows by cohort (one output row per
distinct cohort, in pandas `groupby` key order) and computes, per cohort,
the arithmetic mean, the row count, and the sample standard deviation with
denominator `count - 1` (carried here as its square `std2`, the sample
variance); a cohort of count 1 gets the NaN sentinel `none`, never `some 0`. -/
theorem c7_aggregation (rows : List (String × ℚ)) (hne : rows ≠ []) :
    aggregateRows rows ≠ [] ∧
    (aggregateRows rows).map CohortStat.cohort = cohortKeys rows ∧
    ∀ s ∈ aggregateRows rows,
      1 ≤ s.count ∧
      s.count = (groupVals rows s.cohort).length ∧
      s.mean = (groupVals rows s.cohort).sum / ((groupVals rows s.cohort).length : ℚ) ∧
      (s.count = 1 → s.std2 = none) ∧
      (2 ≤ s.count → s.std2 =
        some ((((groupVals rows s.cohort).map fun x => (x - s.mean) ^ 2).sum)
          / ((s.count : ℚ) - 1))) := by
  refine ⟨?_, ?_, ?_⟩
  · obtain ⟨r, rest, rfl⟩ : ∃ r rest, rows = r :: rest := by
      cases rows with
      | nil => exact absurd rfl hne
      | cons r rest => exact ⟨r, rest, rfl⟩
    have hmem : r.1 ∈ cohortKeys (r :: rest) :=
      mem_cohortKeys.mpr (List.mem_map_of_mem _ (by simp))
    simp only [aggregateRows, ne_eq, List.map_eq_nil_iff]
    exact fun hnil => by simp [hnil] at hmem
  · simp only [aggregateRows, List.map_map]
    exact List.map_id _
  · intro s hs
    obtain ⟨c, hc, rfl⟩ := List.mem_map.mp hs
    refine ⟨?_, rfl, rfl, ?_, ?_⟩
    · have hg := groupVals_ne_nil (mem_cohortKeys.mp hc)
      have := List.length_pos.mpr hg
      simpa using this
    · intro h1
      have h1' : (groupVals rows c).length = 1 := by simpa using h1
      simp [sampleVar, h1']
    · intro h2
      have h2' : 2 ≤ (groupVals rows c).length := by simpa using h2
      simp only [sampleVar]
      rw [if_neg (by omega)]

/-- A small three-row, two-cohort dataset. -/
def rowsSmall : List (String × ℚ) := [("B", 1), ("A", 2), ("B", 3)]

theorem c7_aggregation_witness :
    rowsSmall ≠ [] ∧
    (aggregateRows rowsSmall ≠ [] ∧
     (aggregateRows rowsSmall).map CohortStat.cohort = cohortKeys rowsSmall ∧
     ∀ s ∈ aggregateRows rowsSmall,
       1 ≤ s.count ∧
       s.count = (groupVals rowsSmall s.cohort).length ∧
       s.mean = (groupVals rowsSmall s.cohort).sum
         / ((groupVals rowsSmall s.cohort).length : ℚ) ∧
       (s.count = 1 → s.std2 = none) ∧
       (2 ≤ s.count → s.std2 =
         some ((((groupVals rowsSmall s.cohort).map fun x => (x - s.mean) ^ 2).sum)
           / ((s.count : ℚ) - 1)))) :=
  ⟨by decide, c7_aggregation rowsSmall (by decide)⟩

/-! ### Claim C8: the two output lists never overlap or repeat a cohort -/

lemma not_hi_and_lo (ms : List ℚ) (m : ℚ) :
    ¬(zHiTest ms m = true ∧ zLoTest ms m = true) := by
  rintro ⟨h1, h2⟩
  unfold zHiTest at h1
  unfold zLoTest at h2
  cases hv : sampleVar ms with
  | none => rw [hv] at h1; simp at h1
  | some v =>
    rw [hv] at h1 h2
    simp only [decide_eq_true_eq] at h1 h2
    linarith [h1.1, h2.1]

/-- Cohort identifiers carried by a list of output entries. -/
lemma map_cancer_type_toEntry (l : List CohortStat) :
    (l.map toEntry).map ExprEntry.cancer_type = l.map CohortStat.cohort := by
  simp only [List.map_map]
  exact List.map_congr_left fun a _ => rfl

/-- Claim C8: for a stats mapping (distinct cohort keys), no cohort appears
in both the high and the low list, and neither list repeats a cohort. -/
theorem c8_lists_disjoint_nodup (stats : List CohortStat)
    (hnd : (stats.map CohortStat.cohort).Nodup) :
    ((classify stats).high_expression_cancers.map ExprEntry.cancer_type).Nodup ∧
    ((classify stats).low_expression_cancers.map ExprEntry.cancer_type).Nodup ∧
    ∀ c, c ∈ (classify stats).high_expression_cancers.map ExprEntry.cancer_type →
      c ∉ (classify stats).low_expression_cancers.map ExprEntry.cancer_type := by
  set g := sortByMeanDesc stats with hg
  set ms := meansOf g with hms
  have hgperm : g.Perm stats := sortByMeanDesc_perm stats
  have hgnd : (g.map CohortStat.cohort).Nodup := ((hgperm.map _).nodup_iff).mpr hnd
  have hhi : (classify stats).high_expression_cancers.map ExprEntry.cancer_type
      = (sortByMeanDesc (g.filter fun s => zHiTest ms s.mean)).map CohortStat.cohort := by
    rw [classify_high, map_cancer_type_toEntry]
  have hlo : (classify stats).low_expression_cancers.map ExprEntry.cancer_type
      = (sortByMeanAsc (g.filter fun s => zLoTest ms s.mean)).map CohortStat.cohort := by
    rw [classify_low, map_cancer_type_toEntry]
  have hhiperm : ((sortByMeanDesc (g.filter fun s => zHiTest ms s.mean)).map
      CohortStat.cohort).Perm ((g.filter fun s => zHiTest ms s.mean).map CohortStat.cohort) :=
    (sortByMeanDesc_perm _).map _
  have hloperm : ((sortByMeanAsc (g.filter fun s => zLoTest ms s.mean)).map
      CohortStat.cohort).Perm ((g.filter fun s => zLoTest ms s.mean).map CohortStat.cohort) :=
    (sortByMeanAsc_perm _).map _
  have hhind : ((g.filter fun s => zHiTest ms s.mean).map CohortStat.cohort).Nodup :=
    ((List.filter_sublist g).map _).nodup hgnd
  have hlond : ((g.filter fun s => zLoTest ms s.mean).map CohortStat.cohort).Nodup :=
    ((List.filter_sublist g).map _).nodup hgnd
  refine ⟨?_, ?_, ?_⟩
  · rw [hhi]; exact hhiperm.nodup_iff.mpr hhind
  · rw [hlo]; exact hloperm.nodup_iff.mpr hlond
  · intro c hchi hclo
    rw [hhi] at hchi
    rw [hlo] at hclo
    obtain ⟨s, hsmem, hsc⟩ := List.mem_map.mp (hhiperm.mem_iff.mp hchi)
    obtain ⟨s', hsmem', hsc'⟩ := List.mem_map.mp (hloperm.mem_iff.mp hclo)
    obtain ⟨hsg, hstest⟩ := List.mem_filter.mp hsmem
    obtain ⟨hsg', hstest'⟩ := List.mem_filter.mp hsmem'
    have hss : s = s' :=
      List.inj_on_of_nodup_map hgnd hsg hsg' (by rw [hsc, hsc'])
    subst hss
    exact not_hi_and_lo ms s.mean ⟨hstest, hstest'⟩

theorem c8_lists_disjoint_nodup_witness :
    ((statsPair.map CohortStat.cohort).Nodup) ∧
    (((classify statsPair).high_expression_cancers.map ExprEntry.cancer_type).Nodup ∧
     ((classify statsPair).low_expression_cancers.map ExprEntry.cancer_type).Nodup ∧
     ∀ c, c ∈ (classify statsPair).high_expression_cancers.map ExprEntry.cancer_type →
       c ∉ (classify statsPair).low_expression_cancers.map ExprEntry.cancer_type) :=
  ⟨by decide, c8_lists_disjoint_nodup statsPair (by decide)⟩

/-! ### Claim C1: the threshold tests agree with the literal z-score form -/

lemma zHiTest_iff_real {ms : List ℚ} {v : ℚ} (hv : sampleVar ms = some v)
    (hv0 : v ≠ 0) (m : ℚ) :
    zHiTest ms m = true ↔
      1 < ((m - smean ms : ℚ) : ℝ) / Real.sqrt ((v : ℚ) : ℝ) := by
  have hvpos : (0 : ℚ) < v := lt_of_le_of_ne (sampleVar_nonneg hv) (Ne.symm hv0)
  have hvR : (0 : ℝ) < (v : ℝ) := by exact_mod_cast hvpos
  have hsq : (0 : ℝ) < Real.sqrt (v : ℝ) := Real.sqrt_pos.mpr hvR
  rw [lt_div_iff₀ hsq, one_mul]
  unfold zHiTest
  rw [hv]
  simp only [decide_eq_true_eq]
  constructor
  · rintro ⟨hpos, hlt⟩
    have hdR : (0 : ℝ) < ((m - smean ms : ℚ) : ℝ) := by exact_mod_cast hpos
    rw [Real.sqrt_lt' hdR]
    exact_mod_cast hlt
  · intro hlt
    have hdR : (0 : ℝ) < ((m - smean ms : ℚ) : ℝ) := lt_trans hsq hlt
    refine ⟨by exact_mod_cast hdR, ?_⟩
    have := (Real.sqrt_lt' hdR).mp hlt
    exact_mod_cast this

lemma zLoTest_iff_real {ms : List ℚ} {v : ℚ} (hv : sampleVar ms = some v)
    (hv0 : v ≠ 0) (m : ℚ) :
    zLoTest ms m = true ↔
      ((m - smean ms : ℚ) : ℝ) / Real.sqrt ((v : ℚ) : ℝ) < -1 := by
  have hvpos : (0 : ℚ) < v := lt_of_le_of_ne (sampleVar_nonneg hv) (Ne.symm hv0)
  have hvR : (0 : ℝ) < (v : ℝ) := by exact_mod_cast hvpos
  have hsq : (0 : ℝ) < Real.sqrt (v : ℝ) := Real.sqrt_pos.mpr hvR
  rw [div_lt_iff₀ hsq]
  unfold zLoTest
  rw [hv]
  simp only [decide_eq_true_eq]
  constructor
  · rintro ⟨hneg, hlt⟩
    have hdR : ((m - smean ms : ℚ) : ℝ) < 0 := by exact_mod_cast hneg
    have hltR : (v : ℝ) < ((m - smean ms : ℚ) : ℝ) ^ 2 := by exact_mod_cast hlt
    have h1 : Real.sqrt (v : ℝ) < -((m - smean ms : ℚ) : ℝ) := by
      rw [Real.sqrt_lt' (by linarith)]
      nlinarith
    linarith
  · intro hlt
    have hsqnn := Real.sqrt_nonneg ((v : ℚ) : ℝ)
    have hdR : ((m - smean ms : ℚ) : ℝ) < 0 := by nlinarith
    refine ⟨by exact_mod_cast hdR, ?_⟩
    have h1 : Real.sqrt (v : ℝ) < -((m - smean ms : ℚ) : ℝ) := by nlinarith
    have h2 := (Real.sqrt_lt' (by linarith : (0:ℝ) < -((m - smean ms : ℚ) : ℝ))).mp h1
    have h3 : (v : ℝ) < ((m - smean ms : ℚ) : ℝ) ^ 2 := by nlinarith
    exact_mod_cast h3

instance : IsTotal CohortStat (fun a b => b.mean ≤ a.mean) :=
  ⟨fun a b => le_total b.mean a.mean⟩

instance : IsTrans CohortStat (fun a b => b.mean ≤ a.mean) :=
  ⟨fun _ _ _ h1 h2 => le_trans h2 h1⟩

instance : IsTotal CohortStat (fun a b => a.mean ≤ b.mean) :=
  ⟨fun a b => le_total a.mean b.mean⟩

instance : IsTrans CohortStat (fun a b => a.mean ≤ b.mean) :=
  ⟨fun _ _ _ h1 h2 => le_trans h1 h2⟩

/-- Claim C1: for a stats mapping with at least two cohorts and a nonzero
sample standard deviation of the cohort means, the high list consists of
exactly the cohorts with z-score strictly above 1 sorted by mean descending,
the low list of exactly those with z-score strictly below -1 sorted by mean
ascending, and each entry carries the cohort identifier, the mean rounded to
three decimal places, and the integer count. -/
theorem c1_classification (stats : List CohortStat) (v : ℚ)
    (hn : 2 ≤ stats.length)
    (hv : sampleVar (meansOf stats) = some v) (hv0 : v ≠ 0) :
    ∃ hl ll : List CohortStat,
      (classify stats).high_expression_cancers = hl.map (fun s =>
        { cancer_type := s.cohort, mean_expression := round3 s.mean,
          sample_count := s.count }) ∧
      (classify stats).low_expression_cancers = ll.map (fun s =>
        { cancer_type := s.cohort, mean_expression := round3 s.mean,
          sample_count := s.count }) ∧
      hl.Perm (stats.filter fun s => zHiTest (meansOf stats) s.mean) ∧
      ll.Perm (stats.filter fun s => zLoTest (meansOf stats) s.mean) ∧
      List.Sorted (fun a b : CohortStat => b.mean ≤ a.mean) hl ∧
      List.Sorted (fun a b : CohortStat => a.mean ≤ b.mean) ll ∧
      (∀ s ∈ stats, zHiTest (meansOf stats) s.mean = true ↔
        1 < ((s.mean - smean (meansOf stats) : ℚ) : ℝ) / Real.sqrt ((v : ℚ) : ℝ)) ∧
      (∀ s ∈ stats, zLoTest (meansOf stats) s.mean = true ↔
        ((s.mean - smean (meansOf stats) : ℚ) : ℝ) / Real.sqrt ((v : ℚ) : ℝ) < -1) := by
  have hmsperm : (meansOf (sortByMeanDesc stats)).Perm (meansOf stats) :=
    meansOf_sort_perm stats
  have hgperm : (sortByMeanDesc stats).Perm stats := sortByMeanDesc_perm stats
  have hfilHi : (sortByMeanDesc stats).filter
        (fun s => zHiTest (meansOf (sortByMeanDesc stats)) s.mean)
      = (sortByMeanDesc stats).filter (fun s => zHiTest (meansOf stats) s.mean) :=
    List.filter_congr fun s _ => zHiTest_congr hmsperm s.mean
  have hfilLo : (sortByMeanDesc stats).filter
        (fun s => zLoTest (meansOf (sortByMeanDesc stats)) s.mean)
      = (sortByMeanDesc stats).filter (fun s => zLoTest (meansOf stats) s.mean) :=
    List.filter_congr fun s _ => zLoTest_congr hmsperm s.mean
  refine ⟨sortByMeanDesc ((sortByMeanDesc stats).filter
      (fun s => zHiTest (meansOf (sortByMeanDesc stats)) s.mean)),
    sortByMeanAsc ((sortByMeanDesc stats).filter
      (fun s => zLoTest (meansOf (sortByMeanDesc stats)) s.mean)),
    classify_high stats, classify_low stats, ?_, ?_,
    List.sorted_insertionSort _ _, List.sorted_insertionSort _ _,
    fun s _ => zHiTest_iff_real hv hv0 s.mean,
    fun s _ => zLoTest_iff_real hv hv0 s.mean⟩
  · rw [hfilHi]
    exact (sortByMeanDesc_perm _).trans (hgperm.filter _)
  · rw [hfilLo]
    exact (sortByMeanAsc_perm _).trans (hgperm.filter _)

/-- A four-cohort stats mapping with one clear outlier: the cohort means are
`0, 0, 0, 10`, whose sample variance is `25`. -/
def statsOutlier : List CohortStat :=
  [{ cohort := "A", mean := 0, std2 := some 0, count := 1 },
   { cohort := "B", mean := 0, std2 := some 0, count := 1 },
   { cohort := "C", mean := 0, std2 := some 0, count := 1 },
   { cohort := "D", mean := 10, std2 := some 0, count := 1 }]

theorem c1_classification_witness :
    (2 ≤ statsOutlier.length ∧ sampleVar (meansOf statsOutlier) = some 25 ∧
      (25 : ℚ) ≠ 0) ∧
    (∃ hl ll : List CohortStat,
      (classify statsOutlier).high_expression_cancers = hl.map (fun s =>
        { cancer_type := s.cohort, mean_expression := round3 s.mean,
          sample_count := s.count }) ∧
      (classify statsOutlier).low_expression_cancers = ll.map (fun s =>
        { cancer_type := s.cohort, mean_expression := round3 s.mean,
          sample_count := s.count }) ∧
      hl.Perm (statsOutlier.filter fun s => zHiTest (meansOf statsOutlier) s.mean) ∧
      ll.Perm (statsOutlier.filter fun s => zLoTest (meansOf statsOutlier) s.mean) ∧
      List.Sorted (fun a b : CohortStat => b.mean ≤ a.mean) hl ∧
      List.Sorted (fun a b : CohortStat => a.mean ≤ b.mean) ll ∧
      (∀ s ∈ statsOutlier, zHiTest (meansOf statsOutlier) s.mean = true ↔
        1 < ((s.mean - smean (meansOf statsOutlier) : ℚ) : ℝ)
          / Real.sqrt (((25 : ℚ) : ℚ) : ℝ)) ∧
      (∀ s ∈ statsOutlier, zLoTest (meansOf statsOutlier) s.mean = true ↔
        ((s.mean - smean (meansOf statsOutlier) : ℚ) : ℝ)
          / Real.sqrt (((25 : ℚ) : ℚ) : ℝ) < -1)) :=
  ⟨⟨by decide, by norm_num [sampleVar, smean, meansOf, statsOutlier], by norm_num⟩,
    c1_classification statsOutlier 25 (by decide)
      (by norm_num [sampleVar, smean, meansOf, statsOutlier]) (by norm_num)⟩

/-! ### Claim C6: page-by-page behaviour of the loop -/

/-- A stop condition ends the loop with the requests and frames so far. -/
lemma fetchLoop_step_stop (t : Transport) (fuel : Nat) (params : Params)
    (cols : Option (List String)) (acc : List DF) (trace : List Params)
    (h : (t params).status ≠ 200 ∨ stopBody (t params).text = true) :
    fetchLoop t (fuel + 1) params cols acc trace = some (.ok (trace ++ [params], acc)) := by
  rcases h with h | h
  · simp [fetchLoop, h]
  · simp [fetchLoop, h]

/-- A successful page-1 response parses the header and continues at page 2
with the header as stored schema. -/
lemma fetchLoop_step_header (t : Transport) (fuel : Nat) (params : Params)
    (cols : Option (List String)) (acc : List DF) (trace : List Params)
    (hp : params.page = 1)
    (h200 : (t params).status = 200)
    (hstop : stopBody (t params).text = false) :
    fetchLoop t (fuel + 1) params cols acc trace =
      fetchLoop t fuel { params with page := params.page + 1 }
        (some (readTsvHeader (t params).text).columns)
        (acc ++ [readTsvHeader (t params).text]) (trace ++ [params]) := by
  simp [fetchLoop, h200, hstop, hp]

/-- A successful later page with the stored schema's column count parses
headerless and continues at the next page. -/
lemma fetchLoop_step_good (t : Transport) (fuel : Nat) (params : Params)
    (cs : List String) (acc : List DF) (trace : List Params)
    (hp : params.page ≠ 1)
    (h200 : (t params).status = 200)
    (hstop : stopBody (t params).text = false)
    (hwidth : ((readTsvNoHeader (t params).text).headD []).length = cs.length) :
    fetchLoop t (fuel + 1) params (some cs) acc trace =
      fetchLoop t fuel { params with page := params.page + 1 } (some cs)
        (acc ++ [{ columns := cs, rows := readTsvNoHeader (t params).text }])
        (trace ++ [params]) := by
  have hw' : ((readTsvNoHeader (t params).text).head?.getD []).length = cs.length := by
    rw [← List.headD_eq_head?_getD]
    exact hwidth
  simp [fetchLoop, h200, hstop, hp, setColumns, hw']

/-- Splitting off the first page of a `List.range`-indexed request list. -/
lemma range_map_params (p : Params) (k : Nat) :
    (List.range (k + 1)).map (fun i => { p with page := p.page + i })
      = p :: (List.range k).map (fun i => { p with page := p.page + 1 + i }) := by
  rw [List.range_succ_eq_map, List.map_cons, List.map_map]
  refine congrArg₂ _ rfl ?_
  refine List.map_congr_left fun i _ => ?_
  show { p with page := p.page + (i + 1) } = { p with page := p.page + 1 + i }
  congr 1
  omega

/-- Splitting off the first page of a `List.range`-indexed frame list. -/
lemma range_map_dfs (t : Transport) (p : Params) (cs : List String) (k : Nat) :
    (List.range (k + 1)).map (fun i =>
        ({ columns := cs,
           rows := readTsvNoHeader (t { p with page := p.page + i }).text } : DF))
      = { columns := cs, rows := readTsvNoHeader (t p).text } ::
        (List.range k).map (fun i =>
          ({ columns := cs,
             rows := readTsvNoHeader (t { p with page := p.page + 1 + i }).text } : DF)) := by
  rw [List.range_succ_eq_map, List.map_cons, List.map_map]
  refine congrArg₂ _ rfl ?_
  refine List.map_congr_left fun i _ => ?_
  show ({ columns := cs, rows := readTsvNoHeader (t { p with page := p.page + (i + 1) }).text } : DF)
      = { columns := cs, rows := readTsvNoHeader (t { p with page := p.page + 1 + i }).text }
  have : p.page + (i + 1) = p.page + 1 + i := by omega
  rw [this]

/-- Invariant of the loop from any state past page 1 with a stored schema:
an `ok` outcome means the loop issued `k ≥ 1` consecutively numbered
requests (the last one being the stopping one) and appended one headerless
frame, carrying the stored schema, per non-final page. -/
lemma fetchLoop_ok_inv : ∀ (fuel : Nat) (t : Transport) (params : Params)
    (cs : List String) (acc : List DF) (trace tr : List Params) (dfs : List DF),
    2 ≤ params.page →
    fetchLoop t fuel params (some cs) acc trace = some (.ok (tr, dfs)) →
    ∃ k, 1 ≤ k ∧
      tr = trace ++ (List.range k).map (fun i => { params with page := params.page + i }) ∧
      dfs = acc ++ (List.range (k - 1)).map (fun i =>
        ({ columns := cs,
           rows := readTsvNoHeader (t { params with page := params.page + i }).text } : DF))
  | 0, t, params, cs, acc, trace, tr, dfs => by
    intro _ h
    simp [fetchLoop] at h
  | fuel + 1, t, params, cs, acc, trace, tr, dfs => by
    intro hpage h
    by_cases h200 : (t params).status ≠ 200
    · rw [fetchLoop_step_stop t fuel params (some cs) acc trace (Or.inl h200)] at h
      injection h with h
      injection h with h
      injection h with htr hdfs
      refine ⟨1, le_refl 1, ?_, ?_⟩
      · rw [← htr]
        exact congrArg (trace ++ ·) rfl
      · rw [← hdfs]; simp
    · push_neg at h200
      by_cases hstop : stopBody (t params).text = true
      · rw [fetchLoop_step_stop t fuel params (some cs) acc trace (Or.inr hstop)] at h
        injection h with h
        injection h with h
        injection h with htr hdfs
        refine ⟨1, le_refl 1, ?_, ?_⟩
        · rw [← htr]
          exact congrArg (trace ++ ·) rfl
        · rw [← hdfs]; simp
      · have hstop' : stopBody (t params).text = false := by
          cases hb : stopBody (t params).text
          · rfl
          · exact absurd hb hstop
        have hp1 : params.page ≠ 1 := by omega
        by_cases hw : ((readTsvNoHeader (t params).text).headD []).length = cs.length
        · rw [fetchLoop_step_good t fuel params cs acc trace hp1 h200 hstop' hw] at h
          obtain ⟨k', hk', htr, hdfs⟩ :=
            fetchLoop_ok_inv fuel t { params with page := params.page + 1 } cs
              (acc ++ [{ columns := cs, rows := readTsvNoHeader (t params).text }])
              (trace ++ [params]) tr dfs (by simp; omega) h
          obtain ⟨k'', rfl⟩ : ∃ k'', k' = k'' + 1 := ⟨k' - 1, by omega⟩
          refine ⟨k'' + 1 + 1, by omega, ?_, ?_⟩
          · rw [htr]
            conv_rhs => rw [range_map_params]
            simp [List.append_assoc]
          · rw [hdfs]
            conv_rhs => rw [show k'' + 1 + 1 - 1 = k'' + 1 from rfl, range_map_dfs]
            simp [List.append_assoc, Nat.add_sub_cancel]
        · exfalso
          have hw' : ¬((readTsvNoHeader (t params).text).head?.getD []).length = cs.length := by
            rw [← List.headD_eq_head?_getD]
            exact hw
          have : fetchLoop t (fuel + 1) params (some cs) acc trace =
              some (.error lengthMismatchMsg) := by
            simp [fetchLoop, h200, hstop', hp1, setColumns, hw']
          rw [this] at h
          simp at h

/-- Shape of a terminating run from the initial state: requests go out for
pages `1, 2, ..., k` with otherwise fixed parameters; if any frame was
accumulated, the first is page 1 parsed with its header and each later one
is a later page parsed headerless under page 1's schema. -/
lemma fetchAll_ok_shape (t : Transport) (gene : String) (fuel : Nat)
    (tr : List Params) (dfs : List DF)
    (h : fetchAll t gene fuel = some (.ok (tr, dfs))) :
    ∃ k, 1 ≤ k ∧
      tr = (List.range k).map (fun i => { initParams gene with page := 1 + i }) ∧
      (dfs = [] ∨
        dfs = readTsvHeader (t (initParams gene)).text ::
          (List.range (k - 2)).map (fun i =>
            ({ columns := (readTsvHeader (t (initParams gene)).text).columns,
               rows := readTsvNoHeader
                 (t { initParams gene with page := 2 + i }).text } : DF))) := by
  obtain ⟨f, rfl⟩ : ∃ f, fuel = f + 1 := by
    cases fuel with
    | zero => simp [fetchAll, fetchLoop] at h
    | succ f => exact ⟨f, rfl⟩
  unfold fetchAll at h
  by_cases h200 : (t (initParams gene)).status ≠ 200
  · rw [fetchLoop_step_stop t f (initParams gene) none [] [] (Or.inl h200)] at h
    injection h with h
    injection h with h
    injection h with htr hdfs
    exact ⟨1, le_refl 1, by rw [← htr]; rfl, Or.inl hdfs.symm⟩
  · push_neg at h200
    by_cases hstop : stopBody (t (initParams gene)).text = true
    · rw [fetchLoop_step_stop t f (initParams gene) none [] [] (Or.inr hstop)] at h
      injection h with h
      injection h with h
      injection h with htr hdfs
      exact ⟨1, le_refl 1, by rw [← htr]; rfl, Or.inl hdfs.symm⟩
    · have hstop' : stopBody (t (initParams gene)).text = false := by
        cases hb : stopBody (t (initParams gene)).text
        · rfl
        · exact absurd hb hstop
      rw [fetchLoop_step_header t f (initParams gene) none [] []
        rfl h200 hstop'] at h
      obtain ⟨k', hk', htr, hdfs⟩ :=
        fetchLoop_ok_inv f t { initParams gene with page := (initParams gene).page + 1 }
          (readTsvHeader (t (initParams gene)).text).columns
          ([] ++ [readTsvHeader (t (initParams gene)).text])
          ([] ++ [initParams gene]) tr dfs (by simp [initParams]) h
      refine ⟨k' + 1, by omega, ?_, Or.inr ?_⟩
      · show tr = (List.range (k' + 1)).map
          (fun i => { initParams gene with page := (initParams gene).page + i })
        rw [htr]
        conv_rhs => rw [range_map_params]
        simp [List.append_assoc]
      · obtain ⟨k'', rfl⟩ : ∃ k'', k' = k'' + 1 := ⟨k' - 1, by omega⟩
        rw [hdfs]
        simp [initParams, List.append_assoc, Nat.add_sub_cancel]

/-- Header line of the scenario's first page: five tab-separated columns. -/
def hdrLine5 : String := "cohort\texpression_log2\tcol3\tcol4\tcol5"

/-- Data line of the scenario's pages: five tab-separated fields. -/
def rowLine5 : String := "ACC\t1.5\ta\tb\tc"

/-- The spec's pagination scenario: page 1 answers 2000 rows under a
5-column header, page 2 answers 2000 headerless rows, page 3 answers an
empty body. -/
def tScenario : Transport := fun p =>
  if p.page = 1 then { status := 200, text := hdrLine5 :: List.replicate 2000 rowLine5 }
  else if p.page = 2 then { status := 200, text := List.replicate 2000 rowLine5 }
  else { status := 200, text := [] }

/-- The three requests the scenario issues. -/
def trScenario : List Params :=
  [initParams "TP53", { initParams "TP53" with page := 2 },
   { initParams "TP53" with page := 3 }]

/-- Page 1's frame in the scenario. -/
def dfScenario1 : DF := readTsvHeader (hdrLine5 :: List.replicate 2000 rowLine5)

/-- Page 2's frame in the scenario: headerless rows under page 1's schema. -/
def dfScenario2 : DF :=
  { columns := dfScenario1.columns,
    rows := readTsvNoHeader (List.replicate 2000 rowLine5) }

/-- Running the loop on the scenario transport. -/
lemma scenario_run :
    fetchAll tScenario "TP53" 4 = some (.ok (trScenario, [dfScenario1, dfScenario2])) := by
  show fetchLoop tScenario 4 (initParams "TP53") none [] [] = _
  rw [show (4 : Nat) = 3 + 1 from rfl,
    fetchLoop_step_header tScenario 3 (initParams "TP53") none [] [] rfl
      (by decide) (by decide)]
  show fetchLoop tScenario 3 { initParams "TP53" with page := 2 }
    (some dfScenario1.columns) [dfScenario1] [initParams "TP53"] = _
  rw [show (3 : Nat) = 2 + 1 from rfl,
    fetchLoop_step_good tScenario 2 { initParams "TP53" with page := 2 }
      dfScenario1.columns [dfScenario1] [initParams "TP53"]
      (by decide) (by decide) (by decide) (by decide)]
  show fetchLoop tScenario 2 { initParams "TP53" with page := 3 }
    (some dfScenario1.columns) [dfScenario1, dfScenario2]
    [initParams "TP53", { initParams "TP53" with page := 2 }] = _
  rw [show (2 : Nat) = 1 + 1 from rfl,
    fetchLoop_step_stop tScenario 1 { initParams "TP53" with page := 3 }
      (some dfScenario1.columns) [dfScenario1, dfScenario2]
      [initParams "TP53", { initParams "TP53" with page := 2 }]
      (Or.inr (by decide))]
  rfl

/-- Claim C6: every terminating fetch issues its page requests with an
incrementing page number starting at 1 and otherwise fixed parameters
(`tr` is exactly pages `1..k` of the fixed parameter record), and the
accumulated frames are page 1 parsed with its header followed by the later
pages parsed headerless under page 1's schema, the final dataset being
their ordered row concatenation; in particular the spec's
2000-rows / 2000-rows / empty-page scenario yields exactly 4000 rows under
page 1's 5 columns. -/
theorem c6_pagination (t : Transport) (gene : String) (fuel : Nat)
    (tr : List Params) (dfs : List DF)
    (h : fetchAll t gene fuel = some (.ok (tr, dfs))) :
    (∃ k, 1 ≤ k ∧
      tr = (List.range k).map (fun i => { initParams gene with page := 1 + i }) ∧
      (dfs = [] ∨
        dfs = readTsvHeader (t (initParams gene)).text ::
          (List.range (k - 2)).map (fun i =>
            ({ columns := (readTsvHeader (t (initParams gene)).text).columns,
               rows := readTsvNoHeader
                 (t { initParams gene with page := 2 + i }).text } : DF))) ∧
      (concatDfs dfs).rows = (dfs.map DF.rows).flatten) ∧
    (fetchAll tScenario "TP53" 4 = some (.ok (trScenario, [dfScenario1, dfScenario2])) ∧
      (concatDfs [dfScenario1, dfScenario2]).rows.length = 4000 ∧
      (concatDfs [dfScenario1, dfScenario2]).columns.length = 5) := by
  obtain ⟨k, hk, htr, hdfs⟩ := fetchAll_ok_shape t gene fuel tr dfs h
  refine ⟨⟨k, hk, htr, hdfs, rfl⟩, scenario_run, ?_, by decide⟩
  have h1 : dfScenario1.rows.length = 2000 := by
    simp only [dfScenario1, readTsvHeader, List.tail_cons, tsv, List.length_map,
      List.length_replicate]
  have h2 : dfScenario2.rows.length = 2000 := by
    simp only [dfScenario2, readTsvNoHeader, tsv, List.length_map, List.length_replicate]
  simp only [concatDfs, List.map_cons, List.map_nil, List.flatten_cons, List.flatten_nil,
    List.length_append, h1, h2, List.length_nil]

theorem c6_pagination_witness :
    fetchAll tScenario "TP53" 4 = some (.ok (trScenario, [dfScenario1, dfScenario2])) ∧
    ((∃ k, 1 ≤ k ∧
      trScenario = (List.range k).map (fun i => { initParams "TP53" with page := 1 + i }) ∧
      ([dfScenario1, dfScenario2] = ([] : List DF) ∨
        [dfScenario1, dfScenario2] = readTsvHeader (tScenario (initParams "TP53")).text ::
          (List.range (k - 2)).map (fun i =>
            ({ columns := (readTsvHeader (tScenario (initParams "TP53")).text).columns,
               rows := readTsvNoHeader
                 (tScenario { initParams "TP53" with page := 2 + i }).text } : DF))) ∧
      (concatDfs [dfScenario1, dfScenario2]).rows =
        ([dfScenario1, dfScenario2].map DF.rows).flatten) ∧
    (fetchAll tScenario "TP53" 4 = some (.ok (trScenario, [dfScenario1, dfScenario2])) ∧
      (concatDfs [dfScenario1, dfScenario2]).rows.length = 4000 ∧
      (concatDfs [dfScenario1, dfScenario2]).columns.length = 5)) :=
  ⟨scenario_run,
    c6_pagination tScenario "TP53" 4 trScenario [dfScenario1, dfScenario2] scenario_run⟩

end OrigeneTCGA
